import Mathlib

/-!
Shallow embedding of the request-routing and action-planning pipeline of the
Market-Analyst-Agent repository (`src/tools.py`, `src/main.py`), with theorems
settling the specification claims about entity resolution, action planning,
plan execution and response formatting.

External collaborators (price/news/LLM providers) are modelled as oracle
functions returning `Except String α`, where `Except.error e` stands for a
Python call raising an exception with message `e`.
-/

namespace MarketAgent

/-! ## String helpers mirroring Python string semantics -/

/-- Lower-casing of one character (Python `str.lower`), covering the ASCII and
Cyrillic ranges that occur in the repository's keyword tables. -/
def lowerChar (c : Char) : Char :=
  if 'A' ≤ c ∧ c ≤ 'Z' then Char.ofNat (c.toNat + 32)
  else if 0x410 ≤ c.toNat ∧ c.toNat ≤ 0x42F then Char.ofNat (c.toNat + 0x20)
  else if 0x400 ≤ c.toNat ∧ c.toNat ≤ 0x40F then Char.ofNat (c.toNat + 0x50)
  else if c.toNat = 0x490 then Char.ofNat 0x491
  else c

/-- Python `s.lower()`. -/
def pyLower (s : String) : String := ⟨s.data.map lowerChar⟩

/-- Does the first list occur at the head of the second list? -/
def leadsList : List Char → List Char → Bool
  | [], _ => true
  | _ :: _, [] => false
  | a :: as, b :: bs => a == b && leadsList as bs

/-- Python substring test `needle in hay`. -/
def strContains (hay needle : String) : Bool :=
  (List.range (hay.data.length + 1)).any fun i => leadsList needle.data (hay.data.drop i)

/-- Python `hay.endswith t`. -/
def strEnds (hay t : String) : Bool := leadsList t.data.reverse hay.data.reverse

/-- Python truthiness of an optional string (`None` and `""` are falsy). -/
def optStrTruthy : Option String → Bool
  | none => false
  | some s => s != ""

/-- Rendering of an optional string inside a Python f-string
(`None` prints as `"None"`). -/
def pyShowOpt : Option String → String
  | none => "None"
  | some s => s

/-- Python `s.replace "USD" ""`: removes every (non-overlapping, left-to-right)
occurrence of `"USD"`. -/
def removeUSDList : List Char → List Char
  | 'U' :: 'S' :: 'D' :: rest => removeUSDList rest
  | c :: rest => c :: removeUSDList rest
  | [] => []

/-- Python `s.replace "USD" ""` on strings. -/
def pyRemoveUSD (s : String) : String := ⟨removeUSDList s.data⟩

/-- Stripping of a trailing `"USD"` suffix only — the operation the spec's
words describe for the news-query parameter (claim C4's reading). -/
def specStripTrailingUSD (s : String) : String :=
  if strEnds s "USD" then ⟨s.data.take (s.data.length - 3)⟩ else s

/-! ## Data model -/

/-- The dictionary produced by `detect_entity` (src/tools.py): keys
`is_financial`, `entity`, `entity_type`, `confidence`. -/
structure PyEntityInfo where
  is_financial : Bool
  entity : Option String
  entity_type : Option String
  confidence : ℚ
deriving DecidableEq

/-- The closed set of action kinds emitted by `plan_actions` and interpreted by
`execute_action_plan` (src/tools.py). -/
inductive Action where
  | get_price (symbol : String)
  | get_news_general
  | get_news_targeted (query : String)
  | analyze_sentiment
  | generate_advice (context : String)
deriving DecidableEq

/-- The dictionary returned by `plan_actions`: an ordered action list plus a
human-readable reasoning string. -/
structure ActionPlan where
  actions : List Action
  reasoning : String
deriving DecidableEq

/-! ## ActionPlanner (`plan_actions`, src/tools.py lines 506-571) -/

/-- Price keywords of the entity branch (src/tools.py line 528). -/
def plannerPriceWords : List String := ["ціна", "скільки", "коштує", "price", "cost"]

/-- Investment keywords of the entity branch (src/tools.py line 532). -/
def plannerInvestWords : List String := ["варто", "купити", "вкладати", "инвестировать", "buy", "invest"]

/-- Situational keywords of the entity branch (src/tools.py line 540). -/
def plannerNewsWords : List String := ["новини", "що", "ситуація", "стан", "news", "situation"]

/-- Market keywords of the no-entity branch (src/tools.py line 555). -/
def plannerMarketWords : List String := ["ринок", "ситуація", "новини", "market", "news", "sentiment"]

/-- Investment keywords of the no-entity branch (src/tools.py line 561). -/
def plannerGeneralInvestWords : List String := ["вкладати", "купити", "инвестировать", "invest", "buy"]

/-- Shallow embedding of `plan_actions` (src/tools.py lines 506-571). -/
def plan_actions (user_input : String) (entity_info : PyEntityInfo) : ActionPlan :=
  let user_lower := pyLower user_input
  let actions : List Action :=
    if entity_info.is_financial && optStrTruthy entity_info.entity then
      let entity := entity_info.entity.getD ""
      if plannerPriceWords.any (fun w => strContains user_lower w) then
        [Action.get_price entity]
      else if plannerInvestWords.any (fun w => strContains user_lower w) then
        [Action.get_price entity,
         Action.get_news_targeted (pyRemoveUSD entity),
         Action.generate_advice (entity ++ " investment analysis")]
      else if plannerNewsWords.any (fun w => strContains user_lower w) then
        [Action.get_price entity, Action.get_news_targeted (pyRemoveUSD entity)]
      else
        [Action.get_price entity, Action.get_news_targeted (pyRemoveUSD entity)]
    else
      if plannerMarketWords.any (fun w => strContains user_lower w) then
        [Action.get_news_general, Action.analyze_sentiment]
      else if plannerGeneralInvestWords.any (fun w => strContains user_lower w) then
        [Action.get_news_general, Action.analyze_sentiment,
         Action.generate_advice "general market analysis"]
      else []
  { actions := actions
    reasoning := "Запит містить сутність: " ++ pyShowOpt entity_info.entity ++
      ", тип: " ++ pyShowOpt entity_info.entity_type }

/-- The entity-branch dispatch table as the spec phrases it: keyword groups
tested in the fixed order price > investment > situational on the lower-cased
text, first match deciding the whole plan, the no-match default coinciding
with the situational plan. -/
def specEntityPlan (t s : String) : List Action :=
  let lw := pyLower t
  if plannerPriceWords.any (fun w => strContains lw w) then
    [Action.get_price s]
  else if plannerInvestWords.any (fun w => strContains lw w) then
    [Action.get_price s,
     Action.get_news_targeted (pyRemoveUSD s),
     Action.generate_advice (s ++ " investment analysis")]
  else if plannerNewsWords.any (fun w => strContains lw w) then
    [Action.get_price s, Action.get_news_targeted (pyRemoveUSD s)]
  else
    [Action.get_price s, Action.get_news_targeted (pyRemoveUSD s)]

/-! ## Theorems about the planner -/

/-- C2 (amended): for every text and every entity info carrying
`is_financial = true` and a non-null, NON-EMPTY entity string, `plan_actions`
realises exactly the spec's priority dispatch (price > investment >
situational, first match wins, default = situational plan). -/
theorem planner_dispatch_priority (t s : String) (et : Option String) (conf : ℚ)
    (h : s ≠ "") :
    (plan_actions t
      { is_financial := true, entity := some s, entity_type := et, confidence := conf }).actions
      = specEntityPlan t s := by
  have hs : (s != "") = true := by simpa [bne_iff_ne] using h
  simp [plan_actions, specEntityPlan, optStrTruthy, hs]

/-- Witness for `planner_dispatch_priority` at a concrete input. -/
theorem planner_dispatch_priority_witness :
    (plan_actions "ціна tesla"
      { is_financial := true, entity := some "TSLA", entity_type := some "stock",
        confidence := 9/10 }).actions = specEntityPlan "ціна tesla" "TSLA" :=
  planner_dispatch_priority "ціна tesla" "TSLA" (some "stock") (9/10) (by decide)

/-- C2 fails as literally stated: `entity = some ""` is non-null, yet on the
price-worded text `"price"` the code's Python truthiness test sends it to the
no-entity branch and yields the empty plan instead of `[GetPrice]`. -/
theorem planner_dispatch_counterexample :
    (plan_actions "price"
      { is_financial := true, entity := some "", entity_type := none,
        confidence := 9/10 }).actions = []
    ∧ ([] : List Action) ≠ [Action.get_price ""] := by
  constructor
  · decide
  · decide

/-- C9: re-running `plan_actions` on the same `(text, entityInfo)` pair yields
an identical plan — the embedding is a pure function of its two arguments. -/
theorem planner_idempotent (t₁ t₂ : String) (i₁ i₂ : PyEntityInfo)
    (h₁ : t₁ = t₂) (h₂ : i₁ = i₂) :
    plan_actions t₁ i₁ = plan_actions t₂ i₂ := by
  rw [h₁, h₂]

/-- Witness for `planner_idempotent` at a concrete input. -/
theorem planner_idempotent_witness :
    plan_actions "Ціна Apple"
      { is_financial := true, entity := some "AAPL", entity_type := some "stock",
        confidence := 9/10 }
    = plan_actions "Ціна Apple"
      { is_financial := true, entity := some "AAPL", entity_type := some "stock",
        confidence := 9/10 } :=
  planner_idempotent _ _ _ _ rfl rfl

/-- C4 (amended): every `GetNewsTargeted` action the planner emits for a
resolved entity symbol carries as query the symbol with EVERY occurrence of
the substring `"USD"` removed (Python `entity.replace "USD" ""`). -/
theorem news_query_strips_all_usd (t s : String) (et : Option String) (conf : ℚ)
    (q : String)
    (h : Action.get_news_targeted q ∈
      (plan_actions t
        { is_financial := true, entity := some s, entity_type := et,
          confidence := conf }).actions) :
    q = pyRemoveUSD s := by
  unfold plan_actions at h
  simp only [Option.getD_some] at h
  split_ifs at h <;> simp_all

/-- Witness for `news_query_strips_all_usd` at a concrete input. -/
theorem news_query_strips_all_usd_witness : "BTC" = pyRemoveUSD "BTCUSD" :=
  news_query_strips_all_usd "новини" "BTCUSD" (some "crypto") (9/10) "BTC" (by decide)

/-- C4 fails as literally stated: for the symbol `"USDJPY"` the spec's
trailing-suffix stripping would leave `"USDJPY"` unchanged, but the code's
`replace` removes the leading `"USD"` as well and emits query `"JPY"`. -/
theorem news_query_counterexample :
    (plan_actions "новини"
      { is_financial := true, entity := some "USDJPY", entity_type := some "forex",
        confidence := 9/10 }).actions
      = [Action.get_price "USDJPY", Action.get_news_targeted "JPY"]
    ∧ specStripTrailingUSD "USDJPY" = "USDJPY"
    ∧ ("JPY" : String) ≠ "USDJPY" := by
  refine ⟨by decide, by decide, by decide⟩

/-! ## Static tables of `src/tools.py` -/

/-- `NON_FINANCIAL_KEYWORDS` (src/tools.py lines 175-181). -/
def NON_FINANCIAL_KEYWORDS : List String :=
  ["rays", "baseball", "football", "soccer", "game", "sport", "team", "player",
   "weather", "погода", "температура", "дождь", "снег",
   "cat", "dog", "кот", "собака", "домашні тварини",
   "recipe", "рецепт", "готувати", "їжа", "food",
   "movie", "фільм", "кино", "серіал"]

/-- `POPULAR_TICKERS` (src/tools.py lines 136-165), in insertion order. -/
def POPULAR_TICKERS : List (String × String) :=
  [("apple", "AAPL"), ("aapl", "AAPL"), ("яблоко", "AAPL"), ("епл", "AAPL"),
   ("microsoft", "MSFT"), ("msft", "MSFT"), ("мікрософт", "MSFT"), ("майкрософт", "MSFT"),
   ("google", "GOOGL"), ("googl", "GOOGL"), ("гугл", "GOOGL"), ("alphabet", "GOOGL"),
   ("amazon", "AMZN"), ("amzn", "AMZN"), ("амазон", "AMZN"),
   ("tesla", "TSLA"), ("tsla", "TSLA"), ("тесла", "TSLA"), ("илон маск", "TSLA"),
   ("nvidia", "NVDA"), ("nvda", "NVDA"), ("нвідіа", "NVDA"), ("нвидіа", "NVDA"),
   ("meta", "META"), ("facebook", "META"), ("фейсбук", "META"), ("мета", "META"),
   ("netflix", "NFLX"), ("нетфлікс", "NFLX"), ("нетфликс", "NFLX"),
   ("amd", "AMD"), ("advanced micro", "AMD"),
   ("intel", "INTC"), ("интел", "INTC"),
   ("coinbase", "COIN"), ("коинбейс", "COIN"),
   ("zoom", "ZM"), ("зум", "ZM"),
   ("uber", "UBER"), ("убер", "UBER"),
   ("airbnb", "ABNB"), ("аирбнб", "ABNB"),
   ("bitcoin", "BTCUSD"), ("btc", "BTCUSD"), ("біткоїн", "BTCUSD"), ("биткоин", "BTCUSD"),
   ("ethereum", "ETHUSD"), ("eth", "ETHUSD"), ("ефіріум", "ETHUSD"), ("эфириум", "ETHUSD"),
   ("cardano", "ADAUSD"), ("ada", "ADAUSD"), ("кардано", "ADAUSD"),
   ("solana", "SOLUSD"), ("sol", "SOLUSD"), ("солана", "SOLUSD"),
   ("dogecoin", "DOGEUSD"), ("doge", "DOGEUSD"), ("доге", "DOGEUSD"),
   ("eurusd", "EURUSD"), ("євро", "EURUSD"), ("euro", "EURUSD"),
   ("gbpusd", "GBPUSD"), ("фунт", "GBPUSD"), ("pound", "GBPUSD"),
   ("usdjpy", "USDJPY"), ("йена", "USDJPY"), ("yen", "USDJPY"),
   ("usdcad", "USDCAD"), ("канадський долар", "USDCAD")]

/-- `ASSET_CATEGORIES["stocks"]` (src/tools.py line 169). -/
def ASSET_STOCKS : List String :=
  ["AAPL", "MSFT", "GOOGL", "AMZN", "TSLA", "NVDA", "META", "NFLX", "AMD",
   "INTC", "COIN", "ZM", "UBER", "ABNB"]

/-- `ASSET_CATEGORIES["crypto"]` (src/tools.py line 170). -/
def ASSET_CRYPTO : List String := ["BTCUSD", "ETHUSD", "ADAUSD", "SOLUSD", "DOGEUSD"]

/-- `ASSET_CATEGORIES["forex"]` (src/tools.py line 171). -/
def ASSET_FOREX : List String := ["EURUSD", "GBPUSD", "USDJPY", "USDCAD"]

/-! ## The uppercase-ticker pattern of `detect_entity`

Python regular expression `\b[A-Z]{3,5}\b` (with Unicode word semantics):
a match is a maximal run of word characters made up solely of the letters
`A`-`Z` whose length is between 3 and 5. -/

/-- A Python word character (`\w`) over the alphabets occurring in the
repository: ASCII alphanumerics, underscore, and the Cyrillic block. -/
def isWordChar (c : Char) : Bool :=
  ('A' ≤ c && c ≤ 'Z') || ('a' ≤ c && c ≤ 'z') || ('0' ≤ c && c ≤ '9') ||
  c == '_' || (0x400 ≤ c.toNat && c.toNat ≤ 0x4FF)

/-- Splits a character list into its maximal runs of word characters
(the accumulator holds the current run, reversed). -/
def wordRunsAux : List Char → List Char → List (List Char)
  | acc, [] => if acc.isEmpty then [] else [acc.reverse]
  | acc, c :: rest =>
    if isWordChar c then wordRunsAux (c :: acc) rest
    else if acc.isEmpty then wordRunsAux [] rest
    else acc.reverse :: wordRunsAux [] rest

/-- All matches of `\b[A-Z]{3,5}\b` in the text, in order (`re.findall`). -/
def upperTokens (s : String) : List String :=
  ((wordRunsAux [] s.data).filter fun run =>
    run.all (fun c => 'A' ≤ c && c ≤ 'Z') &&
    decide (3 ≤ run.length) && decide (run.length ≤ 5)).map fun run => ⟨run⟩

/-! ## EntityResolver (`detect_entity`, src/tools.py lines 406-503)

The LLM fallback of `detect_entity` is abstracted as an `oracle` argument:
`Except.ok i` models a reply whose JSON parsed to the entity-info shape `i`,
`Except.error e` models a failed call or unparseable reply (the Python
`except` branch).  The returned `Bool` records whether the oracle (a network
call) was consulted. -/

/-- Shallow embedding of `detect_entity`. -/
def detect_entity (oracle : String → Except String PyEntityInfo)
    (user_input : String) : PyEntityInfo × Bool :=
  let lw := pyLower user_input
  if NON_FINANCIAL_KEYWORDS.any (fun k => strContains lw k) then
    ({ is_financial := false, entity := none, entity_type := none,
       confidence := 8/10 }, false)
  else
    match POPULAR_TICKERS.find? (fun kv => strContains lw kv.1) with
    | some kv =>
        let ticker := kv.2
        let et : String :=
          if ticker ∈ ASSET_CRYPTO then "crypto"
          else if ticker ∈ ASSET_FOREX then "forex"
          else "stock"
        ({ is_financial := true, entity := some ticker, entity_type := some et,
           confidence := 9/10 }, false)
    | none =>
      match upperTokens user_input with
      | t :: _ =>
          let et : String :=
            if t ∈ ASSET_STOCKS then "stock"
            else if t ∈ ASSET_CRYPTO then "crypto"
            else if t ∈ ASSET_FOREX then "forex"
            else "stock"
          ({ is_financial := true, entity := some t, entity_type := some et,
             confidence := 7/10 }, false)
      | [] =>
        match oracle user_input with
        | Except.ok info => (info, true)
        | Except.error _ =>
            ({ is_financial := false, entity := none, entity_type := none,
               confidence := 0 }, true)

/-- The EntityInfo invariant of the spec: the entity is non-null exactly when
the text was judged financial. -/
def entityIffFinancial (i : PyEntityInfo) : Prop :=
  (i.entity ≠ none) ↔ (i.is_financial = true)

/-! ## Theorems about the entity resolver -/

/-- C8: whenever the lower-cased text contains a blocklisted non-financial
keyword, `detect_entity` returns `is_financial = false`, a null entity and
confidence `0.8`, and does not consult the LLM oracle (no network call) —
regardless of any alias or ticker pattern also contained in the text. -/
theorem blocklist_short_circuit (oracle : String → Except String PyEntityInfo)
    (text : String)
    (h : NON_FINANCIAL_KEYWORDS.any (fun k => strContains (pyLower text) k) = true) :
    detect_entity oracle text =
      ({ is_financial := false, entity := none, entity_type := none,
         confidence := 8/10 }, false) := by
  unfold detect_entity
  simp [h]

/-- Witness for `blocklist_short_circuit`: the text of spec Scenario B, which
also contains the uppercase-ticker-like token `Rays`-free case; the oracle is
a function that would fail if consulted. -/
theorem blocklist_short_circuit_witness :
    detect_entity (fun _ => Except.error "unused") "Rays trade deadline" =
      ({ is_financial := false, entity := none, entity_type := none,
         confidence := 8/10 }, false) :=
  blocklist_short_circuit _ _ (by decide)

/-- C3 (amended): the invariant `entity ≠ null ↔ is_financial` holds for every
result of `detect_entity` PROVIDED every successfully parsed LLM reply itself
satisfies it; the non-LLM branches satisfy it unconditionally. -/
theorem entity_invariant_under_valid_llm
    (oracle : String → Except String PyEntityInfo) (text : String)
    (h : ∀ t i, oracle t = Except.ok i → entityIffFinancial i) :
    entityIffFinancial (detect_entity oracle text).1 := by
  unfold detect_entity
  by_cases hb : (NON_FINANCIAL_KEYWORDS.any fun k => strContains (pyLower text) k) = true
  · simp [hb, entityIffFinancial]
  · cases hfind : POPULAR_TICKERS.find? (fun kv => strContains (pyLower text) kv.1) with
    | some kv => simp [hb, hfind, entityIffFinancial]
    | none =>
      cases hup : upperTokens text with
      | cons t rest => simp [hb, hfind, hup, entityIffFinancial]
      | nil =>
        cases horacle : oracle text with
        | ok info => simpa [hb, hfind, hup, horacle] using h _ _ horacle
        | error e => simp [hb, hfind, hup, horacle, entityIffFinancial]

/-- Witness for `entity_invariant_under_valid_llm` at a concrete input whose
resolution reaches the (failing) LLM branch. -/
theorem entity_invariant_witness :
    entityIffFinancial
      (detect_entity (fun _ => Except.error "down") "hello there").1 :=
  entity_invariant_under_valid_llm _ _ (fun _ _ hti => nomatch hti)

/-- C3 fails as literally stated: an LLM reply that parses to
`is_financial = true` with a null entity is returned as the resolver's result
unvalidated, so the returned dictionary violates the claimed iff. -/
theorem entity_invariant_counterexample :
    (detect_entity
      (fun _ => Except.ok
        { is_financial := true, entity := none, entity_type := none,
          confidence := 9/10 }) "hello there").1.is_financial = true
    ∧ (detect_entity
      (fun _ => Except.ok
        { is_financial := true, entity := none, entity_type := none,
          confidence := 9/10 }) "hello there").1.entity = none := by
  refine ⟨by decide, by decide⟩

/-! ## Price-provider dispatch (`get_price`, src/tools.py lines 574-598) -/

/-- The three external price providers `get_price` can route to. -/
inductive Provider where
  | stock
  | crypto
  | forex
deriving DecidableEq

/-- Python `str.isupper`: at least one cased character, and no cased character
is lower-case (over the ASCII and Cyrillic alphabets). -/
def isLowerCased (c : Char) : Bool :=
  ('a' ≤ c && c ≤ 'z') || (0x430 ≤ c.toNat && c.toNat ≤ 0x45F) || c.toNat == 0x491

/-- An upper-case cased character (ASCII or Cyrillic). -/
def isUpperCased (c : Char) : Bool :=
  ('A' ≤ c && c ≤ 'Z') || (0x400 ≤ c.toNat && c.toNat ≤ 0x42F) || c.toNat == 0x490

/-- Python `s.isupper()`. -/
def pyIsUpper (s : String) : Bool :=
  s.data.any (fun c => isLowerCased c || isUpperCased c) &&
  s.data.all (fun c => !isLowerCased c)

/-- Shallow embedding of the routing logic of `get_price`
(src/tools.py lines 574-598): category-list lookup first, then the
format-based heuristic guess.  Note the heuristic tests `"USD" in symbol`
(substring containment), not a trailing suffix. -/
def get_price_dispatch (symbol : String) : Provider :=
  if symbol ∈ ASSET_STOCKS then Provider.stock
  else if symbol ∈ ASSET_CRYPTO then Provider.crypto
  else if symbol ∈ ASSET_FOREX then Provider.forex
  else if strContains symbol "USD" = true ∧ symbol.length ≤ 7 then Provider.crypto
  else if symbol.length = 6 ∧ pyIsUpper symbol = true then Provider.forex
  else Provider.stock

/-- The dispatch as the claim words it: for symbols absent from all category
lists, crypto requires the symbol to END in `"USD"` (claim C5's reading). -/
def specDispatchClaim (symbol : String) : Provider :=
  if symbol ∈ ASSET_STOCKS then Provider.stock
  else if symbol ∈ ASSET_CRYPTO then Provider.crypto
  else if symbol ∈ ASSET_FOREX then Provider.forex
  else if strEnds symbol "USD" = true ∧ symbol.length ≤ 7 then Provider.crypto
  else if symbol.length = 6 ∧ pyIsUpper symbol = true then Provider.forex
  else Provider.stock

/-- C5 (amended): `get_price` routes by category-list membership, and for a
symbol absent from every category list it routes to crypto exactly when the
symbol CONTAINS `"USD"` and has length at most 7, otherwise to forex exactly
when it has length 6 and is all-uppercase, and otherwise to stock. -/
theorem price_dispatch_characterisation :
    (∀ s, s ∈ ASSET_STOCKS → get_price_dispatch s = Provider.stock)
    ∧ (∀ s, s ∈ ASSET_CRYPTO → get_price_dispatch s = Provider.crypto)
    ∧ (∀ s, s ∈ ASSET_FOREX → get_price_dispatch s = Provider.forex)
    ∧ (∀ s, s ∉ ASSET_STOCKS → s ∉ ASSET_CRYPTO → s ∉ ASSET_FOREX →
        ((get_price_dispatch s = Provider.crypto ↔
            (strContains s "USD" = true ∧ s.length ≤ 7))
         ∧ (get_price_dispatch s = Provider.forex ↔
            (¬(strContains s "USD" = true ∧ s.length ≤ 7)
              ∧ s.length = 6 ∧ pyIsUpper s = true))
         ∧ (get_price_dispatch s = Provider.stock ↔
            (¬(strContains s "USD" = true ∧ s.length ≤ 7)
              ∧ ¬(s.length = 6 ∧ pyIsUpper s = true))))) := by
  refine ⟨?_, ?_, ?_, ?_⟩
  · intro s hs; fin_cases hs <;> decide
  · intro s hs; fin_cases hs <;> decide
  · intro s hs; fin_cases hs <;> decide
  · intro s h1 h2 h3
    unfold get_price_dispatch
    rw [if_neg h1, if_neg h2, if_neg h3]
    by_cases hc : strContains s "USD" = true ∧ s.length ≤ 7
    · rw [if_pos hc]
      simp [hc]
    · rw [if_neg hc]
      by_cases hf : s.length = 6 ∧ pyIsUpper s = true
      · rw [if_pos hf]
        have hle : s.length ≤ 7 := by rw [hf.1]; decide
        have hnc : strContains s "USD" = false := by
          cases hcc : strContains s "USD" with
          | false => rfl
          | true => exact absurd ⟨hcc, hle⟩ hc
        simp [hc, hf, hnc]
      · rw [if_neg hf]
        simp [hc, hf]

/-- Witness for `price_dispatch_characterisation` at concrete symbols. -/
theorem price_dispatch_witness :
    get_price_dispatch "AAPL" = Provider.stock
    ∧ get_price_dispatch "TONUSD" = Provider.crypto :=
  ⟨price_dispatch_characterisation.1 "AAPL" (by decide),
   ((price_dispatch_characterisation.2.2.2 "TONUSD" (by decide) (by decide)
      (by decide)).1).mpr (by decide)⟩

/-- C5 fails as literally stated: `"USDX"` is absent from all category lists,
contains `"USD"` only in leading position, and is routed to the crypto
provider by the code, while the claim's ends-in-`"USD"` reading routes it to
the stock provider. -/
theorem price_dispatch_counterexample :
    get_price_dispatch "USDX" = Provider.crypto
    ∧ specDispatchClaim "USDX" = Provider.stock
    ∧ Provider.crypto ≠ Provider.stock := by
  refine ⟨by decide, by decide, by decide⟩

/-! ## ActionExecutor (`execute_action_plan`, src/tools.py lines 688-743)

The external collaborators (price provider, news provider, sentiment and
advice generators) are abstracted as a `Collab` record of oracle functions;
`Except.error e` models the Python call raising an exception with message
`e`, `Except.ok v` a normal return (which for the price provider may itself
be an error-payload dictionary). -/

/-- A news item as built by the news-fetching helpers
(src/tools.py lines 671-682, src/main.py lines 171-181). -/
structure NewsItem where
  title : String
  description : String
  source : String
  published_at : String
  full_text : String
deriving DecidableEq

/-- One sentiment judgment as produced by `analyze_multiple_news`
(src/tools.py lines 92-111). -/
structure SentimentResult where
  sentiment : String
  explanation : String
  confidence : ℚ
deriving DecidableEq

/-- The dictionary stored under the result bag's `price` key: the union of the
keys the providers may return and the keys the formatter reads; an absent key
is `none`. -/
structure PriceDict where
  symbol : Option String := none
  price : Option ℚ := none
  currency : Option String := none
  error : Option String := none
  change : Option ℚ := none
  change_percent : Option ℚ := none
deriving DecidableEq

/-- The executor's shared result bag `results["data"]` keyed by data kind. -/
structure BagData where
  price : Option PriceDict := none
  targeted_news : Option (List NewsItem) := none
  general_news : Option (List NewsItem) := none
  sentiment : Option (List SentimentResult) := none
  advice : Option String := none
deriving DecidableEq

/-- The executor's full result structure `results`
(action log plus data bag). -/
structure ExecResults where
  actions : List String := []
  data : BagData := {}
deriving DecidableEq

/-- The external collaborators called by the executor. -/
structure Collab where
  price : String → Except String PriceDict
  newsTargeted : String → Except String (List NewsItem)
  newsGeneral : Except String (List NewsItem)
  sentiment : List String → Except String (List SentimentResult)
  advice : BagData → String → Except String String

/-- Line 726 of src/tools.py:
`results["data"].get("targeted_news") or results["data"].get("general_news", [])`.
Python `or` falls through both on a missing `targeted_news` key and on a
present-but-EMPTY targeted list. -/
def newsToAnalyze (d : BagData) : List NewsItem :=
  match d.targeted_news with
  | some (x :: xs) => x :: xs
  | _ => d.general_news.getD []

/-- The `action["action"]` tag string of an action. -/
def actionName : Action → String
  | Action.get_price _ => "get_price"
  | Action.get_news_general => "get_news_general"
  | Action.get_news_targeted _ => "get_news_targeted"
  | Action.analyze_sentiment => "analyze_sentiment"
  | Action.generate_advice _ => "generate_advice"

/-- The log line the executor's `except` branch appends
(src/tools.py line 741). -/
def failLog (a : Action) (e : String) : String :=
  "Помилка виконання " ++ actionName a ++ ": " ++ e

/-- One iteration of the executor's loop (src/tools.py lines 700-741).  The
whole per-action body sits inside `try`; a raising collaborator call is
converted to a log line, leaving the data bag unchanged. -/
def execStep (c : Collab) (r : ExecResults) (a : Action) : ExecResults :=
  match a with
  | Action.get_price symbol =>
    match c.price symbol with
    | Except.ok pd =>
        { actions := r.actions ++ ["Отримано ціну для " ++ symbol]
          data := { r.data with price := some pd } }
    | Except.error e =>
        { r with actions := r.actions ++ [failLog (Action.get_price symbol) e] }
  | Action.get_news_targeted q =>
    match c.newsTargeted q with
    | Except.ok items =>
        { actions := r.actions ++ ["Отримано новини для " ++ q]
          data := { r.data with targeted_news := some items } }
    | Except.error e =>
        { r with actions := r.actions ++ [failLog (Action.get_news_targeted q) e] }
  | Action.get_news_general =>
    match c.newsGeneral with
    | Except.ok items =>
        { actions := r.actions ++ ["Отримано загальні новини"]
          data := { r.data with general_news := some items } }
    | Except.error e =>
        { r with actions := r.actions ++ [failLog Action.get_news_general e] }
  | Action.analyze_sentiment =>
    let news := newsToAnalyze r.data
    if news.isEmpty then r
    else
      match c.sentiment ((news.map NewsItem.full_text).take 3) with
      | Except.ok sd =>
          { actions := r.actions ++ ["Проаналізовано тональність новин"]
            data := { r.data with sentiment := some sd } }
      | Except.error e =>
          { r with actions := r.actions ++ [failLog Action.analyze_sentiment e] }
  | Action.generate_advice ctx =>
    match c.advice r.data ctx with
    | Except.ok adv =>
        { actions := r.actions ++ ["Згенеровано інвестиційні поради"]
          data := { r.data with advice := some adv } }
    | Except.error e =>
        { r with actions := r.actions ++ [failLog (Action.generate_advice ctx) e] }

/-- Shallow embedding of `execute_action_plan`: the strictly sequential fold
of `execStep` over the plan's actions, starting from the empty result
structure. -/
def execute_action_plan (c : Collab) (plan : ActionPlan) : ExecResults :=
  plan.actions.foldl (execStep c) {}

/-- The collaborator call performed by action `a` raises with message `e`,
given the bag state `d` at the moment the action runs. -/
def actionRaises (c : Collab) (d : BagData) : Action → String → Prop
  | Action.get_price s, e => c.price s = Except.error e
  | Action.get_news_targeted q, e => c.newsTargeted q = Except.error e
  | Action.get_news_general, e => c.newsGeneral = Except.error e
  | Action.analyze_sentiment, e =>
      (newsToAnalyze d).isEmpty = false ∧
      c.sentiment (((newsToAnalyze d).map NewsItem.full_text).take 3) = Except.error e
  | Action.generate_advice ctx, e => c.advice d ctx = Except.error e

/-- A raising action leaves the data bag untouched and appends exactly the
human-readable failure note to the action log. -/
theorem execStep_of_raises (c : Collab) (r : ExecResults) (a : Action) (e : String)
    (h : actionRaises c r.data a e) :
    execStep c r a = { r with actions := r.actions ++ [failLog a e] } := by
  cases a with
  | get_price s =>
      simp only [actionRaises] at h
      simp [execStep, h]
  | get_news_targeted q =>
      simp only [actionRaises] at h
      simp [execStep, h]
  | get_news_general =>
      simp only [actionRaises] at h
      simp [execStep, h]
  | analyze_sentiment =>
      simp only [actionRaises] at h
      simp [execStep, h.1, h.2]
  | generate_advice ctx =>
      simp only [actionRaises] at h
      simp [execStep, h]

/-! ## Theorems about the executor -/

/-- C1: failure isolation.  For every collaborator behaviour, every plan split
as `p₁ ++ a :: p₂`, and every action `a` whose call raises with message `e`,
`execute_action_plan` (a total function — the exception never reaches the
caller) still folds over EVERY action of `p₂` in order, starting from the
state of `p₁`'s execution extended with exactly the human-readable failure
note for `a`; the data bag carries no entry for the failed action. -/
theorem executor_failure_isolation (c : Collab) (p₁ p₂ : List Action)
    (a : Action) (e : String) (rs : String)
    (h : actionRaises c (execute_action_plan c { actions := p₁, reasoning := rs }).data a e) :
    execute_action_plan c { actions := p₁ ++ a :: p₂, reasoning := rs } =
      p₂.foldl (execStep c)
        { actions := (execute_action_plan c { actions := p₁, reasoning := rs }).actions
            ++ [failLog a e]
          data := (execute_action_plan c { actions := p₁, reasoning := rs }).data } := by
  unfold execute_action_plan at h ⊢
  rw [List.foldl_append, List.foldl_cons,
    execStep_of_raises c _ a e h]

/-- Concrete collaborators for the executor witnesses: the price provider
raises, the news provider succeeds. -/
def witnessCollab : Collab where
  price := fun _ => Except.error "boom"
  newsTargeted := fun _ => Except.ok []
  newsGeneral := Except.ok []
  sentiment := fun _ => Except.ok []
  advice := fun _ _ => Except.ok "ok"

/-- Witness for `executor_failure_isolation`: a two-action plan whose first
action (a `GetPrice`) raises; the second action still runs. -/
theorem executor_failure_isolation_witness :
    execute_action_plan witnessCollab
      { actions := [] ++ Action.get_price "AAPL" :: [Action.get_news_targeted "Apple"]
        reasoning := "r" } =
      [Action.get_news_targeted "Apple"].foldl (execStep witnessCollab)
        { actions := (execute_action_plan witnessCollab
              { actions := [], reasoning := "r" }).actions
            ++ [failLog (Action.get_price "AAPL") "boom"]
          data := (execute_action_plan witnessCollab
              { actions := [], reasoning := "r" }).data } :=
  executor_failure_isolation witnessCollab [] [Action.get_news_targeted "Apple"]
    (Action.get_price "AAPL") "boom" "r" rfl

/-- A sample news item for the executor witnesses. -/
def newsItemA : NewsItem :=
  { title := "Markets rally", description := "d", source := "s",
    published_at := "p", full_text := "Markets rally. d" }

/-- Result state with a present-but-empty targeted list and no general news. -/
def emptyNewsResults : ExecResults :=
  { actions := [], data := { targeted_news := some [], general_news := none } }

/-- Result state with a present-but-empty targeted list and one general item. -/
def emptyTargetedResults : ExecResults :=
  { actions := [], data := { targeted_news := some [], general_news := some [newsItemA] } }

/-- C10: when neither news key holds a non-empty list the sentiment step is a
silent no-op (no `sentiment` key written, no log entry), and the
targeted-over-general priority is decided by NON-EMPTINESS: a present but
empty targeted list makes the step read `general_news` instead. -/
theorem sentiment_noop_and_priority (c : Collab) (r : ExecResults) :
    (newsToAnalyze r.data = [] → execStep c r Action.analyze_sentiment = r)
    ∧ (r.data.targeted_news = some [] →
        newsToAnalyze r.data = r.data.general_news.getD []) := by
  constructor
  · intro h
    simp [execStep, h]
  · intro h
    simp [newsToAnalyze, h]

/-- Witness for `sentiment_noop_and_priority` at concrete result states. -/
theorem sentiment_noop_witness :
    execStep witnessCollab emptyNewsResults Action.analyze_sentiment = emptyNewsResults
    ∧ newsToAnalyze emptyTargetedResults.data
        = emptyTargetedResults.data.general_news.getD [] :=
  ⟨(sentiment_noop_and_priority witnessCollab emptyNewsResults).1 rfl,
   (sentiment_noop_and_priority witnessCollab emptyTargetedResults).2 rfl⟩

/-! ## ResponseFormatter (src/main.py lines 356-611)

`Except.error` models a raised Python exception escaping the formatter; all
rendering branches are otherwise total.  Numeric rendering (`:.2f`) is
modelled over `ℚ`; the rounding of CPython binary floats is approximated, and
no claim below depends on a rendered numeric string. -/

/-- Two-decimal rendering of the absolute value of a rational. -/
def fmt2abs (q : ℚ) : String :=
  let m : ℤ := ⌊|q| * 100 + 1/2⌋
  let whole := m / 100
  let frac := (m % 100).toNat
  toString whole ++ "." ++ (if frac < 10 then "0" else "") ++ toString frac

/-- Python `:.2f`. -/
def fmt2 (q : ℚ) : String := (if q < 0 then "-" else "") ++ fmt2abs q

/-- Python `:+.2f` (explicit sign). -/
def fmtPlus2 (q : ℚ) : String := (if q < 0 then "-" else "+") ++ fmt2abs q

/-- The `display_names` table of `get_entity_display_name`
(src/main.py lines 410-422). -/
def DISPLAY_NAMES : List (String × String) :=
  [("AAPL", "Apple"), ("TSLA", "Tesla"), ("GOOGL", "Google"), ("MSFT", "Microsoft"),
   ("AMZN", "Amazon"), ("META", "Meta"), ("NVDA", "NVIDIA"), ("BTCUSD", "Bitcoin"),
   ("ETHUSD", "Ethereum"), ("EURUSD", "EUR/USD"), ("GBPUSD", "GBP/USD")]

/-- Shallow embedding of `get_entity_display_name` (src/main.py 408-423). -/
def get_entity_display_name (entity : String) : String :=
  (DISPLAY_NAMES.lookup entity).getD entity

/-- Python truthiness of the modelled price dictionary (`not price_data` on a
present dict): falsy exactly when every key is absent. -/
def priceDictTruthy (pd : PriceDict) : Bool :=
  pd.symbol.isSome || pd.price.isSome || pd.currency.isSome || pd.error.isSome ||
  pd.change.isSome || pd.change_percent.isSome

/-- Truthiness of `price_data.get "error"` (missing key and empty message are
falsy). -/
def errTruthy (pd : PriceDict) : Bool :=
  match pd.error with
  | some e => e != ""
  | none => false

/-- Python `title[:n] + "..." if len(title) > n else title`. -/
def truncTitle (n : Nat) (t : String) : String :=
  if n < t.data.length then (⟨t.data.take n⟩ : String) ++ "..." else t

/-- The exception message modelling `None.get` (`AttributeError`). -/
def attrErrorNoneGet : String := "AttributeError: NoneType object has no attribute get"

/-- Shallow embedding of `format_price_response` (src/main.py lines 426-448).
When `price_data` is the Python `None`, the guard `not price_data` is true
and the message f-string then evaluates `price_data.get` ON `None`,
raising `AttributeError` — modelled as `Except.error`. -/
def format_price_response (entity_name : String) (price_data : Option PriceDict) :
    Except String String :=
  match price_data with
  | none => Except.error attrErrorNoneGet
  | some pd =>
    if !priceDictTruthy pd || errTruthy pd then
      Except.ok ("❌ Не вдалося отримати ціну для " ++ entity_name ++ ". " ++
        pd.error.getD "")
    else
      let symbol := pd.symbol.getD entity_name
      match pd.price with
      | none => Except.ok ("❌ Ціна для " ++ entity_name ++ " недоступна")
      | some p =>
        let head := "💰 **" ++ entity_name ++ " (" ++ symbol ++ "): $" ++ fmt2 p ++ "**"
        let parts :=
          match pd.change, pd.change_percent with
          | some ch, some cp =>
            let emoji := if 0 ≤ ch then "📈" else "📉"
            let sign := if 0 ≤ ch then "+" else ""
            [head, emoji ++ " " ++ sign ++ fmt2 ch ++ " (" ++ sign ++ fmt2 cp ++ "%)"]
          | _, _ => [head]
        Except.ok (String.intercalate "\n" (parts ++ ["⏰ Оновлено: щойно"]))

/-- Shallow embedding of `format_investment_response`
(src/main.py lines 451-484). -/
def format_investment_response (entity_name : String) (data : BagData) : String :=
  let parts := ["📊 **Аналіз " ++ entity_name ++ "**\n"]
  let parts :=
    match data.price with
    | some pd =>
      if !errTruthy pd then
        match pd.price with
        | some p =>
          if p ≠ 0 then
            let parts := parts ++ ["💰 Поточна ціна: $" ++ fmt2 p]
            match pd.change with
            | some ch =>
                parts ++ ["📈 Динаміка: " ++
                  (if 0 ≤ ch then "зростання" else "падіння") ++
                  " (" ++ fmtPlus2 ch ++ ")"]
            | none => parts
          else parts
        | none => parts
      else parts
    | none => parts
  let parts :=
    match data.sentiment with
    | some sd =>
      let bullish := sd.countP (fun s => pyLower s.sentiment == "bullish")
      let bearish := sd.countP (fun s => pyLower s.sentiment == "bearish")
      if bearish < bullish then parts ++ ["📈 Новини переважно позитивні"]
      else if bullish < bearish then parts ++ ["📉 Новини переважно негативні"]
      else parts ++ ["⚖️ Новини збалансовані"]
    | none => parts
  let parts :=
    match data.advice with
    | some a => parts ++ ["\n" ++ a]
    | none => parts
  String.intercalate "\n" parts

/-- Shallow embedding of `format_news_response` (src/main.py lines 487-507). -/
def format_news_response (entity_name : String) (data : BagData) : String :=
  let parts := ["📰 **Новини про " ++ entity_name ++ "**\n"]
  let parts :=
    match data.price with
    | some pd =>
      if !errTruthy pd then
        match pd.price with
        | some p => if p ≠ 0 then parts ++ ["💰 Поточна ціна: $" ++ fmt2 p] else parts
        | none => parts
      else parts
    | none => parts
  let news := data.targeted_news.getD []
  let parts :=
    if !news.isEmpty then
      parts ++ ["\n🔍 **Останні новини (" ++ toString news.length ++ "):**"] ++
        ((news.take 3).enumFrom 1).map
          (fun p => toString p.1 ++ ". " ++ truncTitle 70 p.2.title)
    else parts ++ ["ℹ️ Актуальні новини не знайдені"]
  String.intercalate "\n" parts

/-- Shallow embedding of `format_general_asset_response`
(src/main.py lines 510-532). -/
def format_general_asset_response (entity_name : String) (data : BagData) : String :=
  let parts := ["📋 **" ++ entity_name ++ "**\n"]
  let parts :=
    match data.price with
    | some pd =>
      if !errTruthy pd then
        match pd.price with
        | some p =>
          if p ≠ 0 then
            let parts := parts ++ ["💰 Ціна: $" ++ fmt2 p]
            match pd.change with
            | some ch =>
                parts ++ [(if 0 ≤ ch then "📈" else "📉") ++ " Зміна: " ++ fmtPlus2 ch]
            | none => parts
          else parts
        | none => parts
      else parts
    | none => parts
  let parts :=
    match data.targeted_news.getD [] with
    | n0 :: _ => parts ++ ["📰 Останні новини: " ++ truncTitle 80 n0.title]
    | [] => parts
  String.intercalate "\n" parts

/-- Shallow embedding of `format_market_overview_response`
(src/main.py lines 535-563); note the key-news block is nested inside the
sentiment branch in the source. -/
def format_market_overview_response (data : BagData) : String :=
  let parts := ["📊 **Ринкова ситуація**\n"]
  match data.sentiment with
  | some sd =>
    let bullish := sd.countP (fun s => pyLower s.sentiment == "bullish")
    let bearish := sd.countP (fun s => pyLower s.sentiment == "bearish")
    let total := sd.length
    let parts := parts ++
      (if bearish < bullish then
        ["📈 **Позитивний настрій** (" ++ toString bullish ++ "/" ++
          toString total ++ " новин)", "Ринок схильний до зростання"]
      else if bullish < bearish then
        ["📉 **Негативний настрій** (" ++ toString bearish ++ "/" ++
          toString total ++ " новин)", "Ринок під тиском"]
      else
        ["⚖️ **Нейтральний настрій** (" ++ toString total ++ " новин)",
         "Ринок в очікуванні"])
    let news := data.general_news.getD []
    let parts :=
      if !news.isEmpty then
        parts ++ ["\n🔍 **Ключові новини:**"] ++
          ((news.take 3).enumFrom 1).map
            (fun p => toString p.1 ++ ". " ++ truncTitle 60 p.2.title)
      else parts
    String.intercalate "\n" parts
  | none => String.intercalate "\n" parts

/-- The fixed reply of `format_general_investment_response` when no advice
was generated (src/main.py lines 571-584). -/
def generalInvestmentFallback : String :=
  "📊 **Загальні інвестиційні поради**\n\n💡 **Базові принципи:**\n• Диверсифікуйте портфель між різними активами\n• Інвестуйте довгостроково (від 1 року)\n• Не вкладайте більше 5-10% в один актив\n\n⚠️ **Ризики:**\n• Ринки волатильні та непередбачувані\n• Минулі результати не гарантують майбутніх\n\n🔍 **Рекомендація:** Проаналізуйте конкретні активи для точніших порад.\n\n**Дисклеймер:** Це не фінансова консультація."

/-- Shallow embedding of `format_general_investment_response`
(src/main.py lines 566-584). -/
def format_general_investment_response (data : BagData) : String :=
  match data.advice with
  | some a => a
  | none => generalInvestmentFallback

/-- Price keywords of the formatter dispatch (src/main.py line 382). -/
def fmtPriceWords : List String := ["ціна", "скільки", "коштує", "price", "cost"]

/-- Investment keywords of the formatter dispatch (src/main.py line 386). -/
def fmtInvestWords : List String := ["варто", "купити", "вкладати", "інвестувати", "buy", "invest"]

/-- News keywords of the formatter dispatch (src/main.py line 390). -/
def fmtNewsWords : List String := ["новини", "що", "ситуація", "стан", "news", "situation"]

/-- Market keywords of the formatter's no-entity branch (src/main.py line 399). -/
def fmtMarketWords : List String := ["ринок", "ситуація", "новини", "market", "news"]

/-- Investment keywords of the formatter's no-entity branch
(src/main.py line 401). -/
def fmtGeneralInvestWords : List String := ["вкладати", "купити", "інвестувати", "invest", "buy"]

/-- Shallow embedding of `format_intelligent_response`
(src/main.py lines 356-405). -/
def format_intelligent_response (user_input : String) (entity_info : PyEntityInfo)
    (execution_results : ExecResults) : Except String String :=
  let data := execution_results.data
  let user_lower := pyLower user_input
  if entity_info.is_financial && optStrTruthy entity_info.entity then
    let entity := entity_info.entity.getD ""
    let entity_name := get_entity_display_name entity
    if fmtPriceWords.any (fun w => strContains user_lower w) then
      format_price_response entity_name data.price
    else if fmtInvestWords.any (fun w => strContains user_lower w) then
      Except.ok (format_investment_response entity_name data)
    else if fmtNewsWords.any (fun w => strContains user_lower w) then
      Except.ok (format_news_response entity_name data)
    else
      Except.ok (format_general_asset_response entity_name data)
  else
    if fmtMarketWords.any (fun w => strContains user_lower w) then
      Except.ok (format_market_overview_response data)
    else if fmtGeneralInvestWords.any (fun w => strContains user_lower w) then
      Except.ok (format_general_investment_response data)
    else
      Except.ok "Обробив ваш запит, але не знайшов специфічних даних для відповіді."

/-- The fixed out-of-domain clarification message of
`handle_fallback_response` (src/main.py lines 590-601). -/
def outOfDomainMessage : String :=
  "Вибачте, здається ваш запит не стосується фінансів. \n\nЯ спеціалізуюся на:\n🔍 Аналізі ринкових новин\n💰 Цінах акцій та криптовалют  \n📈 Інвестиційних порадах\n\nСпробуйте запитати щось на кшталт:\n• \"Ціна Apple\"\n• \"Варто купляти Tesla?\"\n• \"Що там на ринку?\"\n"

/-- Shallow embedding of `handle_fallback_response`
(src/main.py lines 587-611). -/
def handle_fallback_response (_user_input : String) (entity_info : PyEntityInfo) :
    String :=
  if !entity_info.is_financial then outOfDomainMessage
  else
    let entity := pyShowOpt entity_info.entity
    "Розумію, що ви питаєте про " ++ entity ++
      ", але не зміг точно визначити, що саме вас цікавить.\n\nСпробуйте уточнити:\n💰 \"Ціна " ++
      entity ++ "\"\n📊 \"Новини про " ++ entity ++ "\"  \n📈 \"Варто купляти " ++
      entity ++ "?\"\n\nАбо задайте більш конкретне питання."

/-! ## Theorems about the formatter -/

/-- C7 is violated by the code (code bug): with the `price` bag key absent,
the price branch's guard message evaluates `.get` on Python `None` and
raises `AttributeError`, both in `format_price_response` itself and through
`format_intelligent_response` on a price-worded query — the formatter does
not degrade gracefully there. -/
theorem formatter_price_branch_crash :
    format_price_response "Apple" none = Except.error attrErrorNoneGet
    ∧ format_intelligent_response "ціна apple"
        { is_financial := true, entity := some "AAPL", entity_type := some "stock",
          confidence := 9/10 } {} = Except.error attrErrorNoneGet := by
  refine ⟨rfl, rfl⟩

/-- C6 fails as literally stated: on a non-financial entity info,
`format_intelligent_response` (the formatter that consumes the ResultBag)
dispatches on keywords — here to the market-overview template — instead of
returning the fixed out-of-domain message. -/
theorem out_of_domain_counterexample :
    format_intelligent_response "новини"
      { is_financial := false, entity := none, entity_type := none,
        confidence := 8/10 } {}
      = Except.ok "📊 **Ринкова ситуація**\n"
    ∧ ("📊 **Ринкова ситуація**\n" : String) ≠ outOfDomainMessage := by
  refine ⟨rfl, by decide⟩

/-- C6 (amended): it is the fallback handler `handle_fallback_response` that
returns the one fixed out-of-domain message for every text whenever
`is_financial` is false; it takes no ResultBag argument at all, so the reply
is trivially independent of the bag's contents. -/
theorem fallback_out_of_domain (t : String) (i : PyEntityInfo)
    (h : i.is_financial = false) :
    handle_fallback_response t i = outOfDomainMessage := by
  simp [handle_fallback_response, h]

/-- Witness for `fallback_out_of_domain` at the Scenario B input. -/
theorem fallback_out_of_domain_witness :
    handle_fallback_response "Rays trade deadline"
      { is_financial := false, entity := none, entity_type := none,
        confidence := 8/10 } = outOfDomainMessage :=
  fallback_out_of_domain _ _ rfl

end MarketAgent
